import Mathlib

/-!
# Verification of the ecommerce catalog API

A shallow embedding of the catalog-management API (Django/DRF app
`ecommerce_api`): the data model (`models.py`), the request validators
(`serializers.py`) and the view operations (`views.py`), together with
theorems settling the spec's claims about them.

Monetary values (`DecimalField(max_digits=10, decimal_places=2)`) are
modelled as integer cents (`Int`), which represents every representable
decimal value exactly.  Database tables are modelled as lists of records,
kept in insertion (primary-key) order; a `Store` value is the whole
database.  Each HTTP operation is a pure function from a `Store` and the
request data to a new `Store` and a result; atomic rollback is modelled by
returning the original store on the failure paths.
-/

/-- Money in cents: exact model of `Decimal` values with two decimal places. -/
abbrev Money := Int

/-- `models.Merchant`. -/
structure Merchant where
  id : Nat
  name : String
  email : String
  store_url : String
  status : String
deriving Repr, DecidableEq

/-- `models.Product`: composite-unique on (merchant, external_id). -/
structure Product where
  id : Nat
  merchantId : Nat
  external_id : String
  title : String
  description : String
  product_type : String
  active : Bool
  base_price : Money
deriving Repr, DecidableEq

/-- `models.Variant`: composite-unique on (product, external_id). -/
structure Variant where
  id : Nat
  productId : Nat
  external_id : String
  name : String
  sku : String
  price : Money
  retail_price : Money
  quantity : Int
  active : Bool
deriving Repr, DecidableEq

/-- The catalog database: one list per table, in primary-key order, plus
the autoincrement counters. -/
structure Store where
  merchants : List Merchant
  products : List Product
  variants : List Variant
  nextProductId : Nat
  nextVariantId : Nat
deriving Repr, DecidableEq

/-! ## Import payloads and validation (`serializers.py`) -/

/-- A decimal as it stands in the raw JSON payload, before any conversion:
either a JSON number or a (non-empty) string encoding.  The distinction
matters because `import_product` reads the raw dict (the `product` field is
a plain `DictField`, and `validate_product` returns it unconverted) and
tests Python truthiness of the raw value at `views.py:185`: a number is
truthy iff non-zero, while a validated string encoding is always truthy —
`"0.00"` included.  `value` is the exact result of `Decimal(str(raw))`.
Fields whose raw encoding is never truthiness-tested (`price`) are modelled
by their value alone. -/
inductive RawDecimal where
  | num (value : Money)
  | text (value : Money)
deriving Repr, DecidableEq

/-- `Decimal(str(raw))`: the decimal value of the raw encoding. -/
def RawDecimal.value : RawDecimal → Money
  | .num v => v
  | .text v => v

/-- Python truthiness of the raw payload value: a JSON number is truthy iff
non-zero; a string that passed `DecimalField` validation is non-empty and
therefore always truthy. -/
def RawDecimal.truthy : RawDecimal → Bool
  | .num v => !(v == 0)
  | .text _ => true

/-- A raw variant object inside the import payload; `none` marks an absent
key.  `compare_at_price` distinguishes an absent key (`none`) from an
explicit JSON `null` (`some none`) and keeps the raw encoding of a value
(`some (some c)`). -/
structure RawVariant where
  id : Option String
  title : Option String
  sku : Option String
  price : Option Money
  compare_at_price : Option (Option RawDecimal)
  inventory_quantity : Option Int
deriving Repr, DecidableEq

/-- The raw `product` object of the import payload. -/
structure RawProduct where
  id : Option String
  title : Option String
  description : Option String
  product_type : Option String
  variants : Option (List RawVariant)
deriving Repr, DecidableEq

/-- A variant payload accepted by `ImportVariantSerializer`, with the
serializer defaults applied (`sku` defaults to `""`, an absent or null
`compare_at_price` becomes `none`).  `compare_at_price` keeps the raw
encoding: the view reads the raw dict, not the serializer's converted
values. -/
structure VariantPayload where
  id : String
  title : String
  sku : String
  price : Money
  compare_at_price : Option RawDecimal
  quantity : Int
deriving Repr, DecidableEq

/-- A product payload accepted by `ImportProductSerializer.validate_product`,
with the view's `.get(key, '')` defaults for description/product_type. -/
structure ProductPayload where
  id : String
  title : String
  description : String
  product_type : String
  variants : List VariantPayload
deriving Repr, DecidableEq

/-- `ImportVariantSerializer`: requires `id`, `title`, `price` and a
non-negative `inventory_quantity`; `sku` is optional with default `""`;
`compare_at_price` is optional and nullable. -/
def validateVariant (rv : RawVariant) : Option VariantPayload :=
  match rv.id, rv.title, rv.price, rv.inventory_quantity with
  | some i, some t, some pr, some q =>
    if q < 0 then none
    else some { id := i, title := t, sku := rv.sku.getD "", price := pr,
                compare_at_price := rv.compare_at_price.getD none, quantity := q }
  | _, _, _, _ => none

/-- `ImportProductSerializer.validate_product`: the product dict must carry
`id`, `title` and a list `variants`, and every variant must validate.  Note
that an empty `variants` list passes (DRF `many=True` accepts `[]`). -/
def validateProduct (rp : RawProduct) : Option ProductPayload :=
  match rp.id, rp.title, rp.variants with
  | some i, some t, some vs =>
    match vs.mapM validateVariant with
    | some pvs => some { id := i, title := t,
                         description := rp.description.getD "",
                         product_type := rp.product_type.getD "",
                         variants := pvs }
    | none => none
  | _, _, _ => none

/-! ## The import operation (`views.py`, `import_product`) -/

/-- Result of an import call, together with the HTTP payload data the view
serializes on success. -/
inductive ImportResult where
  | badRequest
  | notFoundMerchant
  | integrityError
  | internalError
  | ok (created : Bool) (product : Product) (variants : List Variant)
       (merchant_name : String)
deriving Repr, DecidableEq

/-- HTTP status code of an import result. -/
def ImportResult.status : ImportResult → Nat
  | .badRequest => 400
  | .notFoundMerchant => 404
  | .integrityError => 400
  | .internalError => 500
  | .ok created _ _ _ => if created then 201 else 200

/-- `Product.objects.get_or_create` followed by the metadata refresh: returns
the (fresh or updated) product row, the `created` flag, and the store after
the product-table write. -/
def resolveProduct (s : Store) (mId : Nat) (p : ProductPayload) :
    Product × Bool × Store :=
  match s.products.find? (fun q => q.merchantId == mId && q.external_id == p.id) with
  | some q =>
    let q' := { q with title := p.title, description := p.description,
                       product_type := p.product_type }
    (q', false,
     { s with products := s.products.map (fun r => if r.id == q.id then q' else r) })
  | none =>
    let q' : Product := { id := s.nextProductId, merchantId := mId,
                          external_id := p.id, title := p.title,
                          description := p.description,
                          product_type := p.product_type,
                          active := true, base_price := 0 }
    (q', true,
     { s with products := s.products ++ [q'],
              nextProductId := s.nextProductId + 1 })

/-- External ids of the variants already stored for a product
(`product.variants.values_list('external_id', flat=True)`). -/
def existingIdsFor (s : Store) (pid : Nat) : List String :=
  (s.variants.filter (fun v => v.productId == pid)).map (fun v => v.external_id)

/-- Build one `Variant` row from a payload variant: `retail_price` is
`Decimal(str(compare_at_price))` when the raw payload value is Python-truthy
(`if variant_data.get('compare_at_price'):` at `views.py:185` — a number is
truthy iff non-zero, a string encoding such as `"0.00"` is always truthy),
otherwise the price. -/
def buildVariant (vid : Nat) (pid : Nat) (pv : VariantPayload) : Variant :=
  { id := vid, productId := pid, external_id := pv.id, name := pv.title,
    sku := pv.sku, price := pv.price,
    retail_price := match pv.compare_at_price with
                    | some c => if c.truthy then c.value else pv.price
                    | none => pv.price,
    quantity := pv.quantity, active := true }

/-- Build the batch of rows for `bulk_create`, assigning consecutive
autoincrement ids. -/
def buildVariants (vid : Nat) (pid : Nat) : List VariantPayload → List Variant
  | [] => []
  | pv :: rest => buildVariant vid pid pv :: buildVariants (vid + 1) pid rest

/-- Pairwise distinctness of a list of external ids: the condition under
which the batch insert satisfies the (product, external_id) uniqueness
constraint. -/
def distinctIds : List String → Bool
  | [] => true
  | x :: xs => !xs.contains x && distinctIds xs

/-- Python `min` over a list: `none` on the empty list (where CPython raises
`ValueError`). -/
def minList : List Money → Option Money
  | [] => none
  | h :: t => some (t.foldl min h)

/-- The body of `import_product` after serializer validation succeeded:
resolve the merchant, get-or-create and refresh the product, batch-insert
the unseen payload variants, recompute `base_price` from the payload, all
inside one transaction (failure returns the untouched store). -/
def importValidated (s : Store) (url : String) (p : ProductPayload) :
    Store × ImportResult :=
  match s.merchants.find? (fun m => m.store_url == url) with
  | none => (s, .notFoundMerchant)
  | some m =>
    let rp := resolveProduct s m.id p
    let prod0 := rp.1
    let created := rp.2.1
    let s1 := rp.2.2
    let existing := existingIdsFor s1 prod0.id
    let toCreate := buildVariants s1.nextVariantId prod0.id
      (p.variants.filter (fun pv => !existing.contains pv.id))
    if !distinctIds (toCreate.map (fun v => v.external_id)) then
      (s, .integrityError)
    else
      let s2 := { s1 with variants := s1.variants ++ toCreate,
                          nextVariantId := s1.nextVariantId + toCreate.length }
      match minList (p.variants.map (fun pv => pv.price)) with
      | none => (s, .internalError)
      | some mp =>
        let prodF := { prod0 with base_price := mp }
        let s3 := { s2 with
          products := s2.products.map (fun r => if r.id == prodF.id then prodF else r) }
        (s3, .ok created prodF
          (s3.variants.filter (fun v => v.productId == prodF.id)) m.name)

/-- `POST /products/import`: serializer validation first (`validate_product`
and `validate_store_url`, whose merchant-existence check makes a missing
merchant a 400 validation failure), then the transactional body. -/
def importProduct (s : Store) (url : String) (rp : RawProduct) :
    Store × ImportResult :=
  match validateProduct rp with
  | none => (s, .badRequest)
  | some p =>
    if (s.merchants.find? (fun m => m.store_url == url)).isNone then
      (s, .badRequest)
    else importValidated s url p

/-! ## Listing, detail, filtering and pagination (`views.py`) -/

/-- Lower-cased characters of a string, for case-insensitive matching. -/
def charsLower (s : String) : List Char := s.data.map Char.toLower

/-- Substring test on character lists. -/
def containsSub (needle : List Char) : List Char → Bool
  | [] => needle.isEmpty
  | c :: rest => needle.isPrefixOf (c :: rest) || containsSub needle rest

/-- Django `title__icontains`: case-insensitive substring match. -/
def icontains (hay needle : String) : Bool :=
  containsSub (charsLower needle) (charsLower hay)

/-- `get_queryset` merchant filter: applied whenever `merchant_id` was
supplied, on list and detail alike. -/
def applyMerchant (q : List Product) : Option Nat → List Product
  | some mId => q.filter (fun p => p.merchantId == mId)
  | none => q

/-- `get_queryset` active filter: `"true"`/`"false"` case-insensitively,
anything else is silently ignored. -/
def applyActive (q : List Product) : Option String → List Product
  | some a =>
    if a.toLower == "true" then q.filter (fun p => p.active)
    else if a.toLower == "false" then q.filter (fun p => !p.active)
    else q
  | none => q

/-- `get_queryset` search filter: `title__icontains`; an empty search
string is falsy in Python and applies no filter. -/
def applySearch (q : List Product) : Option String → List Product
  | some t => if t == "" then q else q.filter (fun p => icontains p.title t)
  | none => q

/-- The full `get_queryset` filter chain (without the list-only
missing-merchant guard, which the `list` override makes unreachable). -/
def applyFilters (q : List Product) (mId : Option Nat)
    (active search : Option String) : List Product :=
  applySearch (applyActive (applyMerchant q mId) active) search

/-- `ProductListSerializer` projection. -/
structure ProductSummary where
  id : Nat
  title : String
  base_price : Money
  active : Bool
  image_url : Option String
deriving Repr, DecidableEq

/-- Project a product row to its list-view summary (`image_url` is always
null). -/
def toSummary (p : Product) : ProductSummary :=
  { id := p.id, title := p.title, base_price := p.base_price,
    active := p.active, image_url := none }

/-- Query parameters of `GET /products`. -/
structure ListParams where
  merchant_id : Option Nat
  active : Option String
  search : Option String
  page : Nat := 1
  page_size : Option Nat := none
deriving Repr, DecidableEq

/-- Result of a list call. -/
inductive ListResult where
  | badRequest
  | notFoundMerchant
  | notFoundPage
  | ok (count : Nat) (results : List ProductSummary)
deriving Repr, DecidableEq

/-- HTTP status code of a list result: DRF maps an invalid page
(`InvalidPage` from the Django paginator) to `NotFound`. -/
def ListResult.status : ListResult → Nat
  | .badRequest => 400
  | .notFoundMerchant => 404
  | .notFoundPage => 404
  | .ok _ _ => 200

/-- `ProductPagination.get_page_size`: the `page_size` query parameter when
positive, cut off at `max_page_size = 100`; otherwise the default
`page_size = 20`. -/
def effectivePageSize : Option Nat → Nat
  | none => 20
  | some n => if n == 0 then 20 else min n 100

/-- Django `Paginator.num_pages` with `allow_empty_first_page`:
`ceil(max(1, count) / per_page)`. -/
def numPages (count pageSize : Nat) : Nat :=
  max 1 ((count + pageSize - 1) / pageSize)

/-- `GET /products`: the `list` override demands `merchant_id` (400) and an
existing merchant (404); then the filtered queryset is paginated, pages
1-based, a page outside `1..num_pages` being a 404. -/
def listProducts (s : Store) (params : ListParams) : ListResult :=
  match params.merchant_id with
  | none => .badRequest
  | some mId =>
    match s.merchants.find? (fun m => m.id == mId) with
    | none => .notFoundMerchant
    | some _ =>
      let qs := applyFilters s.products (some mId) params.active params.search
      let ps := effectivePageSize params.page_size
      if params.page < 1 || numPages qs.length ps < params.page then .notFoundPage
      else .ok qs.length
        (((qs.drop ((params.page - 1) * ps)).take ps).map toSummary)

/-- Query parameters that also reach a detail fetch. -/
structure DetailParams where
  merchant_id : Option Nat := none
  active : Option String := none
  search : Option String := none
deriving Repr, DecidableEq

/-- Result of a detail fetch, carrying the serialized product, all of its
variants, and the owning merchant's name. -/
inductive DetailResult where
  | notFound
  | ok (product : Product) (variants : List Variant) (merchant_name : String)
deriving Repr, DecidableEq

/-- HTTP status code of a detail result. -/
def DetailResult.status : DetailResult → Nat
  | .notFound => 404
  | .ok _ _ _ => 200

/-- `GET /products/{id}`: `get_object` looks the id up inside the filtered
`get_queryset`, so a supplied `merchant_id`, `active` or `search` parameter
narrows the candidates; the detail serializer nests every variant of the
product and the merchant's name. -/
def getProductDetail (s : Store) (pk : Nat) (q : DetailParams) : DetailResult :=
  let qs := applyFilters s.products q.merchant_id q.active q.search
  match qs.find? (fun p => p.id == pk) with
  | none => .notFound
  | some p =>
    .ok p (s.variants.filter (fun v => v.productId == p.id))
      (((s.merchants.find? (fun m => m.id == p.merchantId)).map
          (fun m => m.name)).getD "")

/-! ## Bulk activation (`views.py`, `bulk_activate`) -/

/-- Result of a bulk-activate call. -/
inductive BulkResult where
  | badRequest
  | ok (updated_count : Nat) (active : Bool)
deriving Repr, DecidableEq

/-- HTTP status code of a bulk-activate result. -/
def BulkResult.status : BulkResult → Nat
  | .badRequest => 400
  | .ok _ _ => 200

/-- `POST /products/bulk-activate`: `BulkActivateSerializer` rejects an
empty id list; otherwise one set-based
`filter(id__in=product_ids).update(active=active)`, whose return value is
the number of matched rows. -/
def bulkActivate (s : Store) (product_ids : List Nat) (active : Bool) :
    Store × BulkResult :=
  if product_ids.isEmpty then (s, .badRequest)
  else
    let upd := fun (p : Product) =>
      if product_ids.contains p.id then { p with active := active } else p
    ({ s with products := s.products.map upd },
     .ok (s.products.filter (fun p => product_ids.contains p.id)).length active)

/-! ## Concrete fixtures

Small concrete stores and payloads, mirroring the spec's end-to-end
scenario and the repository's test script data, used to instantiate the
theorems below on explicit inputs. -/

/-- A provisioned merchant with store_url `"s1"`. -/
def mercFix : Merchant :=
  { id := 1, name := "Tech Store", email := "tech@example.com",
    store_url := "s1", status := "ACTIVE" }

/-- A second merchant with store_url `"s2"`. -/
def merc2Fix : Merchant :=
  { id := 2, name := "Fashion Boutique", email := "fashion@example.com",
    store_url := "s2", status := "ACTIVE" }

/-- A store holding the two merchants and an empty catalog. -/
def storeFix : Store :=
  { merchants := [mercFix, merc2Fix], products := [], variants := [],
    nextProductId := 1, nextVariantId := 1 }

/-- A stored product of merchant 1. -/
def prodFix : Product :=
  { id := 10, merchantId := 1, external_id := "P1", title := "Widget",
    description := "", product_type := "", active := true, base_price := 800 }

/-- A stored variant of `prodFix`, priced 8.00. -/
def varFix : Variant :=
  { id := 5, productId := 10, external_id := "V1", name := "Black", sku := "",
    price := 800, retail_price := 800, quantity := 5, active := true }

/-- The store after `prodFix`/`varFix` were imported. -/
def storeWithProd : Store :=
  { merchants := [mercFix, merc2Fix], products := [prodFix],
    variants := [varFix], nextProductId := 11, nextVariantId := 6 }

/-- A store of merchant 1 with two products (ids 1 and 2). -/
def storeTwoProds : Store :=
  { merchants := [mercFix],
    products :=
      [{ id := 1, merchantId := 1, external_id := "P1", title := "A",
         description := "", product_type := "", active := true, base_price := 100 },
       { id := 2, merchantId := 1, external_id := "P2", title := "B",
         description := "", product_type := "", active := true, base_price := 200 }],
    variants := [], nextProductId := 3, nextVariantId := 1 }

/-- A validated payload re-importing `varFix`'s external id at a higher
price 20.00. -/
def payloadDupFix : ProductPayload :=
  { id := "P1", title := "Widget", description := "", product_type := "",
    variants := [{ id := "V1", title := "Black", sku := "", price := 2000,
                   compare_at_price := none, quantity := 5 }] }

/-- A validated payload whose two variants collide on external id. -/
def payloadCollideFix : ProductPayload :=
  { id := "P2", title := "Gadget", description := "", product_type := "",
    variants := [{ id := "W1", title := "A", sku := "", price := 100,
                   compare_at_price := none, quantity := 1 },
                 { id := "W1", title := "B", sku := "", price := 200,
                   compare_at_price := none, quantity := 2 }] }

/-- `prodFix` after its base price was overwritten to 20.00. -/
def prodFix2000 : Product := { prodFix with base_price := 2000 }

/-- The store resulting from importing `payloadDupFix` into
`storeWithProd`: the duplicate variant is skipped, the base price is
overwritten. -/
def storeAfterDup : Store := { storeWithProd with products := [prodFix2000] }

/-- A validated payload with one variant carrying a non-zero
`compare_at_price` of `"12.00"` (string-encoded) over a price of 10.00. -/
def payloadCapFix : ProductPayload :=
  { id := "P3", title := "Cap", description := "", product_type := "",
    variants := [{ id := "V3", title := "Std", sku := "", price := 1000,
                   compare_at_price := some (.text 1200), quantity := 1 }] }

/-- The product row created by importing `payloadCapFix` into `storeFix`. -/
def prodCapNew : Product :=
  { id := 1, merchantId := 1, external_id := "P3", title := "Cap",
    description := "", product_type := "", active := true, base_price := 1000 }

/-- The variant row created by importing `payloadCapFix` into `storeFix`:
its retail price is the payload's compare_at_price 12.00. -/
def varCapNew : Variant :=
  { id := 1, productId := 1, external_id := "V3", name := "Std", sku := "",
    price := 1000, retail_price := 1200, quantity := 1, active := true }

/-- The store after importing `payloadCapFix` into `storeFix`. -/
def storeAfterCap : Store :=
  { merchants := [mercFix, merc2Fix], products := [prodCapNew],
    variants := [varCapNew], nextProductId := 2, nextVariantId := 2 }

/-- A validated payload whose variant carries `compare_at_price` as the
string `"0.00"`: value zero, but Python-truthy as a non-empty string. -/
def payloadZeroCap : ProductPayload :=
  { id := "P4", title := "Zero", description := "", product_type := "",
    variants := [{ id := "V4", title := "Std", sku := "", price := 1000,
                   compare_at_price := some (.text 0), quantity := 1 }] }

/-- The product row created by importing `payloadZeroCap` into `storeFix`. -/
def prodZeroNew : Product :=
  { id := 1, merchantId := 1, external_id := "P4", title := "Zero",
    description := "", product_type := "", active := true, base_price := 1000 }

/-- The variant row created by importing `payloadZeroCap` into `storeFix`:
the string-encoded zero is truthy, so the stored retail price is 0.00, not
the 10.00 price. -/
def varZeroNew : Variant :=
  { id := 1, productId := 1, external_id := "V4", name := "Std", sku := "",
    price := 1000, retail_price := 0, quantity := 1, active := true }

/-- The store after importing `payloadZeroCap` into `storeFix`. -/
def storeAfterZeroCap : Store :=
  { merchants := [mercFix, merc2Fix], products := [prodZeroNew],
    variants := [varZeroNew], nextProductId := 2, nextVariantId := 2 }

/-- A raw import payload with one well-formed variant. -/
def rawFix : RawProduct :=
  { id := some "P9", title := some "Thing", description := none,
    product_type := none,
    variants := some [{ id := some "V9", title := some "Std", sku := none,
                        price := some 1000, compare_at_price := none,
                        inventory_quantity := some 1 }] }

/-- A raw import payload whose `variants` list is present but empty. -/
def rawEmptyVariants : RawProduct :=
  { id := some "P9", title := some "Thing", description := none,
    product_type := none, variants := some [] }

/-! ## Helper lemmas -/

/-- `resolveProduct` writes only the product table and its counter. -/
theorem resolveProduct_variants (s : Store) (mId : Nat) (p : ProductPayload) :
    (resolveProduct s mId p).2.2.variants = s.variants := by
  unfold resolveProduct
  cases s.products.find? (fun q => q.merchantId == mId && q.external_id == p.id) <;> rfl

/-- The row `resolveProduct` hands back is in the product table it wrote. -/
theorem resolveProduct_fst_mem (s : Store) (mId : Nat) (p : ProductPayload) :
    (resolveProduct s mId p).1 ∈ (resolveProduct s mId p).2.2.products := by
  unfold resolveProduct
  cases hf : s.products.find? (fun q => q.merchantId == mId && q.external_id == p.id) with
  | none => simp
  | some q =>
    have hq : q ∈ s.products := List.mem_of_find?_eq_some hf
    simp only
    refine List.mem_map.mpr ⟨q, hq, ?_⟩
    simp

/-- Replacing the row with a given id keeps membership of the replacement,
provided some row with that id is present. -/
theorem mem_map_update_self {l : List Product} {a b : Product}
    (ha : a ∈ l) (hid : b.id = a.id) :
    b ∈ l.map (fun r => if r.id == b.id then b else r) := by
  refine List.mem_map.mpr ⟨a, ha, ?_⟩
  simp [hid]

/-- `buildVariants` keeps the payload's external ids, in order. -/
theorem buildVariants_map_external (pid : Nat) :
    ∀ (l : List VariantPayload) (n : Nat),
      (buildVariants n pid l).map (fun v => v.external_id) = l.map (fun pv => pv.id)
  | [], _ => rfl
  | pv :: rest, n => by
    simp [buildVariants, buildVariant, buildVariants_map_external pid rest (n + 1)]

/-- Every row in a `buildVariants` batch is the build of some payload
variant. -/
theorem buildVariants_mem (pid : Nat) :
    ∀ (l : List VariantPayload) (n : Nat) (v : Variant),
      v ∈ buildVariants n pid l → ∃ k pv, pv ∈ l ∧ v = buildVariant k pid pv
  | [], _, _, h => by simp [buildVariants] at h
  | pv :: rest, n, v, h => by
    simp only [buildVariants, List.mem_cons] at h
    cases h with
    | inl h => exact ⟨n, pv, List.mem_cons_self .., h⟩
    | inr h =>
      obtain ⟨k, pv', hmem, hv⟩ := buildVariants_mem pid rest (n + 1) v h
      exact ⟨k, pv', List.mem_cons_of_mem _ hmem, hv⟩

/-! ## Claim theorems -/

/-- C1: every successful import persists `base_price` as the minimum price
of the variants of that call's payload — recomputed purely from the
incoming payload (also when every payload variant was skipped as an
already-stored duplicate), never as the minimum over all stored
variants. -/
theorem import_base_price_is_payload_min
    (s : Store) (url : String) (p : ProductPayload)
    (s' : Store) (c : Bool) (prod : Product) (vs : List Variant) (nm : String)
    (h : importValidated s url p = (s', .ok c prod vs nm)) :
    minList (p.variants.map (fun pv => pv.price)) = some prod.base_price ∧
    prod ∈ s'.products := by
  unfold importValidated at h
  cases hm : s.merchants.find? (fun m => m.store_url == url) with
  | none => rw [hm] at h; simp [Prod.mk.injEq] at h
  | some m =>
    rw [hm] at h
    dsimp only at h
    cases hrp : resolveProduct s m.id p with
    | mk prod0 cs =>
      cases cs with
      | mk created s1 =>
        rw [hrp] at h
        simp only at h
        split at h
        · simp [Prod.mk.injEq] at h
        · cases hmin : minList (p.variants.map (fun pv => pv.price)) with
          | none => rw [hmin] at h; simp [Prod.mk.injEq] at h
          | some mp =>
            rw [hmin] at h
            simp only [Prod.mk.injEq, ImportResult.ok.injEq] at h
            obtain ⟨hs, hc, hprod, hvs, hnm⟩ := h
            subst hs hprod
            refine ⟨rfl, ?_⟩
            have h0 : prod0 ∈ s1.products := by
              have := resolveProduct_fst_mem s m.id p
              rw [hrp] at this
              exact this
            exact mem_map_update_self h0 rfl

/-- C1 witness: re-importing `varFix`'s external id at price 20.00 into
`storeWithProd` (stored minimum 8.00) skips the duplicate variant yet sets
`base_price` to 20.00, the payload minimum. -/
theorem import_base_price_is_payload_min_witness :
    minList (payloadDupFix.variants.map (fun pv => pv.price)) =
      some prodFix2000.base_price ∧
    prodFix2000 ∈ storeAfterDup.products :=
  import_base_price_is_payload_min storeWithProd "s1" payloadDupFix
    storeAfterDup false prodFix2000 [varFix] "Tech Store" (by decide)

/-- The transactional import body only ever appends to the variant table. -/
theorem importValidated_variants_append
    (s : Store) (url : String) (p : ProductPayload) :
    ∃ new, ((importValidated s url p).1).variants = s.variants ++ new := by
  unfold importValidated
  cases hm : s.merchants.find? (fun m => m.store_url == url) with
  | none => exact ⟨[], by simp⟩
  | some m =>
    dsimp only
    split
    · exact ⟨[], by simp⟩
    · cases hmin : minList (p.variants.map (fun pv => pv.price)) with
      | none => exact ⟨[], by simp⟩
      | some mp =>
        dsimp only
        rw [resolveProduct_variants]
        exact ⟨_, rfl⟩

/-- C2: an import call never updates or deletes a stored variant row — the
variant table of the resulting store is the original table with the newly
inserted rows appended, so a payload variant whose external_id is already
stored leaves the stored variant's price, retail_price, quantity, name and
sku untouched whatever values the payload carries. -/
theorem import_variant_rows_preserved
    (s : Store) (url : String) (rp : RawProduct) :
    ∃ new, ((importProduct s url rp).1).variants = s.variants ++ new := by
  unfold importProduct
  cases hv : validateProduct rp with
  | none => exact ⟨[], by simp⟩
  | some p =>
    dsimp only
    split
    · exact ⟨[], by simp⟩
    · exact importValidated_variants_append s url p

/-- C3 counterexample: importing against `storeFix` with a store_url that
matches no merchant is answered with the serializer's validation failure —
HTTP 400, not the claimed 404 — because
`ImportProductSerializer.validate_store_url` already fails `is_valid()`,
making the view's `Merchant.DoesNotExist` 404 branch unreachable.  The
store is untouched. -/
theorem import_missing_merchant_not_404 :
    importProduct storeFix "nonexistent-store" rawFix =
      (storeFix, .badRequest) ∧
    ImportResult.status .badRequest = 400 ∧
    (importProduct storeFix "nonexistent-store" rawFix).2.status ≠ 404 := by
  refine ⟨by decide, rfl, by decide⟩

/-- C3 amended: an import call whose store_url resolves to no merchant
fails with HTTP 400 (a validation error raised before the transactional
body) and makes no store mutation. -/
theorem import_missing_merchant_is_validation_error
    (s : Store) (url : String) (rp : RawProduct)
    (hm : s.merchants.find? (fun m => m.store_url == url) = none) :
    importProduct s url rp = (s, .badRequest) ∧
    ImportResult.status .badRequest = 400 := by
  refine ⟨?_, rfl⟩
  unfold importProduct
  cases hv : validateProduct rp with
  | none => rfl
  | some p => simp [hm]

/-- C3 amended, witness: the concrete refutation input, via the amended
theorem. -/
theorem import_missing_merchant_is_validation_error_witness :
    importProduct storeFix "nonexistent-store" rawFix =
      (storeFix, .badRequest) ∧
    ImportResult.status .badRequest = 400 :=
  import_missing_merchant_is_validation_error storeFix "nonexistent-store"
    rawFix (by decide)

/-- C4: an import payload whose `variants` list is present but empty passes
serializer validation (DRF's `many=True` accepts `[]`), the transactional
body then crashes computing `min()` over an empty sequence, and the caller
receives HTTP 500 — not the claimed 400 validation rejection.  The
transaction rolls the product creation back, so the store is unchanged. -/
theorem import_empty_variants_is_500 :
    importProduct storeFix "s1" rawEmptyVariants = (storeFix, .internalError) ∧
    ImportResult.status .internalError = 500 := by
  refine ⟨by decide, rfl⟩

/-- `resolveProduct` leaves the variant table alone, so the set of already
stored external ids it sees is the original store's. -/
theorem existingIdsFor_resolve (s : Store) (mId : Nat) (p : ProductPayload)
    (pid : Nat) :
    existingIdsFor (resolveProduct s mId p).2.2 pid = existingIdsFor s pid := by
  unfold existingIdsFor
  rw [resolveProduct_variants]

/-- C10: when the payload holds two or more variants sharing an external_id,
none of which are already stored for the product being imported, the batch
insert violates the (product, external_id) uniqueness constraint; the
whole import call — product creation and metadata update included — rolls
back to the original store and the caller gets the 400 integrity-error
response. -/
theorem import_duplicate_batch_rolls_back
    (s : Store) (url : String) (p : ProductPayload) (m : Merchant)
    (hm : s.merchants.find? (fun mm => mm.store_url == url) = some m)
    (hdup : distinctIds (p.variants.map (fun pv => pv.id)) = false)
    (hnew : ∀ pv ∈ p.variants,
      (existingIdsFor s (resolveProduct s m.id p).1.id).contains pv.id = false) :
    importValidated s url p = (s, .integrityError) ∧
    ImportResult.status .integrityError = 400 := by
  refine ⟨?_, rfl⟩
  unfold importValidated
  rw [hm]
  dsimp only
  have hfilter :
      List.filter
        (fun pv => !(existingIdsFor (resolveProduct s m.id p).2.2
            (resolveProduct s m.id p).1.id).contains pv.id) p.variants
        = p.variants := by
    refine List.filter_eq_self.mpr (fun pv hpv => ?_)
    rw [existingIdsFor_resolve, hnew pv hpv]
    rfl
  rw [hfilter, buildVariants_map_external, hdup]
  rfl

/-- C10 witness: importing `payloadCollideFix`, whose two fresh variants
share external id `"W1"`, into `storeFix` rolls back to `storeFix` with the
400 integrity error. -/
theorem import_duplicate_batch_rolls_back_witness :
    importValidated storeFix "s1" payloadCollideFix =
      (storeFix, .integrityError) ∧
    ImportResult.status .integrityError = 400 :=
  import_duplicate_batch_rolls_back storeFix "s1" payloadCollideFix mercFix
    (by decide) (by decide) (by decide)

/-- C8 counterexample: a payload variant whose `compare_at_price` is the
string `"0.00"` — value zero, hence outside the claim's "present and
non-null/non-zero" condition, which therefore demands
`retail_price = price` — is stored with `retail_price = 0`:
`views.py:185` tests Python truthiness of the raw payload value, and the
non-empty string `"0.00"` is truthy even though its decimal value is
zero. -/
theorem import_zero_string_retail_counterexample :
    importValidated storeFix "s1" payloadZeroCap =
      (storeAfterZeroCap, .ok true prodZeroNew [varZeroNew] "Tech Store") ∧
    payloadZeroCap.variants.map (fun pv => pv.compare_at_price) =
      [some (RawDecimal.text 0)] ∧
    RawDecimal.value (RawDecimal.text 0) = 0 ∧
    varZeroNew.price = 1000 ∧
    varZeroNew.retail_price = 0 ∧
    varZeroNew.retail_price ≠ varZeroNew.price := by
  refine ⟨by decide, by decide, rfl, rfl, rfl, by decide⟩

/-- C8 amended: every variant row newly inserted by an import call
corresponds to a payload variant of that call; its stored price is the
payload price, and its stored retail_price is the decimal value of the
payload's `compare_at_price` when the raw payload value is Python-truthy
(present, non-null, and either a non-zero number or any string encoding —
a string-encoded zero such as `"0.00"` is truthy and is stored, making
`retail_price` 0), and the payload price otherwise. -/
theorem import_new_variant_retail_price
    (s : Store) (url : String) (p : ProductPayload)
    (s' : Store) (r : ImportResult)
    (h : importValidated s url p = (s', r)) :
    ∀ v ∈ s'.variants, v ∉ s.variants →
      ∃ pv, pv ∈ p.variants ∧ v.external_id = pv.id ∧ v.price = pv.price ∧
        v.quantity = pv.quantity ∧
        ((∃ cc, pv.compare_at_price = some cc ∧ cc.truthy = true ∧
            v.retail_price = cc.value) ∨
         ((pv.compare_at_price = none ∨
           (∃ cc, pv.compare_at_price = some cc ∧ cc.truthy = false)) ∧
          v.retail_price = pv.price)) := by
  intro v hv hnotin
  unfold importValidated at h
  cases hm : s.merchants.find? (fun m => m.store_url == url) with
  | none =>
    rw [hm] at h
    simp only [Prod.mk.injEq] at h
    exact absurd (h.1 ▸ hv) hnotin
  | some m =>
    rw [hm] at h
    dsimp only at h
    split at h
    · simp only [Prod.mk.injEq] at h
      exact absurd (h.1 ▸ hv) hnotin
    · cases hmin : minList (p.variants.map (fun pv => pv.price)) with
      | none =>
        rw [hmin] at h
        simp only [Prod.mk.injEq] at h
        exact absurd (h.1 ▸ hv) hnotin
      | some mp =>
        rw [hmin] at h
        simp only [Prod.mk.injEq] at h
        have hvars : s'.variants
            = (resolveProduct s m.id p).2.2.variants ++
              buildVariants (resolveProduct s m.id p).2.2.nextVariantId
                (resolveProduct s m.id p).1.id
                (List.filter
                  (fun pv => !(existingIdsFor (resolveProduct s m.id p).2.2
                      (resolveProduct s m.id p).1.id).contains pv.id)
                  p.variants) := by
          rw [← h.1]
        rw [resolveProduct_variants] at hvars
        rw [hvars] at hv
        have hvnew : v ∈ buildVariants (resolveProduct s m.id p).2.2.nextVariantId
            (resolveProduct s m.id p).1.id
            (List.filter
              (fun pv => !(existingIdsFor (resolveProduct s m.id p).2.2
                  (resolveProduct s m.id p).1.id).contains pv.id)
              p.variants) := by
          cases List.mem_append.mp hv with
          | inl hl => exact absurd hl hnotin
          | inr hr => exact hr
        obtain ⟨k, pv, hpvmem, hveq⟩ := buildVariants_mem _ _ _ _ hvnew
        refine ⟨pv, List.mem_of_mem_filter hpvmem, ?_, ?_, ?_, ?_⟩
        · rw [hveq]; rfl
        · rw [hveq]; rfl
        · rw [hveq]; rfl
        · cases hcap : pv.compare_at_price with
          | none => exact Or.inr ⟨Or.inl rfl, by rw [hveq]; simp [buildVariant, hcap]⟩
          | some cc =>
            cases htr : cc.truthy with
            | true => exact Or.inl ⟨cc, rfl, htr,
                by rw [hveq]; simp [buildVariant, hcap, htr]⟩
            | false => exact Or.inr ⟨Or.inr ⟨cc, rfl, htr⟩,
                by rw [hveq]; simp [buildVariant, hcap, htr]⟩

/-- C8 amended, witness: the variant inserted for `payloadCapFix` into
`storeFix` matches its payload variant, with retail price 12.00 taken from
the truthy string-encoded compare_at_price. -/
theorem import_new_variant_retail_price_witness :
    ∃ pv, pv ∈ payloadCapFix.variants ∧
      varCapNew.external_id = pv.id ∧ varCapNew.price = pv.price ∧
      varCapNew.quantity = pv.quantity ∧
      ((∃ cc, pv.compare_at_price = some cc ∧ cc.truthy = true ∧
          varCapNew.retail_price = cc.value) ∨
       ((pv.compare_at_price = none ∨
         (∃ cc, pv.compare_at_price = some cc ∧ cc.truthy = false)) ∧
        varCapNew.retail_price = pv.price)) :=
  import_new_variant_retail_price storeFix "s1" payloadCapFix storeAfterCap
    (.ok true prodCapNew [varCapNew] "Tech Store") (by decide)
    varCapNew (by decide) (by decide)

/-- C5 counterexample: `storeWithProd` holds one product for merchant 1, so
with the default page size the last page is page 1; requesting page 2
yields the DRF invalid-page response, HTTP 404 — not the claimed empty page
with HTTP 200. -/
theorem list_page_beyond_last_not_200 :
    listProducts storeWithProd
      { merchant_id := some 1, active := none, search := none, page := 2 } =
      .notFoundPage ∧
    ListResult.status .notFoundPage = 404 := by
  refine ⟨by decide, rfl⟩

/-- Every effective page size is positive. -/
theorem effectivePageSize_pos (o : Option Nat) : 1 ≤ effectivePageSize o := by
  unfold effectivePageSize
  cases o with
  | none => decide
  | some n =>
    by_cases h : n = 0
    · simp [h]
    · have h1 : 1 ≤ n := Nat.one_le_iff_ne_zero.mpr h
      simp [h]
      omega

/-- C5 amended: the page size defaults to 20, a caller-supplied positive
page size is honoured up to the hard cap of 100, pages are 1-based — but a
request for a page beyond the last yields HTTP 404 (`NotFound` for the
invalid page), not an empty HTTP 200 page. -/
theorem list_pagination_contract :
    effectivePageSize none = 20 ∧
    (∀ n : Nat, 1 ≤ n → effectivePageSize (some n) = min n 100) ∧
    (∀ (s : Store) (mId : Nat) (a se : Option String) (pg : Nat)
        (psz : Option Nat),
      (s.merchants.find? (fun m => m.id == mId)).isSome = true →
      numPages (applyFilters s.products (some mId) a se).length
          (effectivePageSize psz) < pg →
      listProducts s { merchant_id := some mId, active := a, search := se,
                       page := pg, page_size := psz } = .notFoundPage) := by
  refine ⟨rfl, ?_, ?_⟩
  · intro n hn
    unfold effectivePageSize
    have h : n ≠ 0 := Nat.one_le_iff_ne_zero.mp hn
    simp [h]
  · intro s mId a se pg psz hms hlt
    obtain ⟨m, hm⟩ := Option.isSome_iff_exists.mp hms
    unfold listProducts
    dsimp only
    rw [hm]
    dsimp only
    have : (decide (pg < 1) || decide
        (numPages (applyFilters s.products (some mId) a se).length
          (effectivePageSize psz) < pg)) = true := by
      simp [hlt]
    rw [this]
    rfl

/-- C5 amended, witness: instance at `storeWithProd` — default size 20,
size 250 capped at 100, and page 2 beyond the single-product last page
answered with the invalid-page 404. -/
theorem list_pagination_contract_witness :
    effectivePageSize none = 20 ∧
    effectivePageSize (some 250) = min 250 100 ∧
    listProducts storeWithProd
      { merchant_id := some 1, active := none, search := none, page := 2,
        page_size := none } = .notFoundPage :=
  ⟨list_pagination_contract.1,
   list_pagination_contract.2.1 250 (by decide),
   list_pagination_contract.2.2 storeWithProd 1 none none 2 none
     (by decide) (by decide)⟩

/-- The active filter of an empty queryset is empty. -/
theorem applyActive_nil (o : Option String) : applyActive [] o = [] := by
  unfold applyActive
  cases o with
  | none => rfl
  | some a =>
    dsimp only
    split
    · rfl
    · split <;> rfl

/-- The search filter of an empty queryset is empty. -/
theorem applySearch_nil (o : Option String) : applySearch [] o = [] := by
  unfold applySearch
  cases o with
  | none => rfl
  | some t =>
    dsimp only
    split <;> rfl

/-- C6: listing without `merchant_id` is rejected with HTTP 400 before any
query; with a `merchant_id` naming no merchant it is HTTP 404; with an
existing merchant owning no products it is HTTP 200 carrying count 0 and an
empty result list. -/
theorem list_merchant_requirement :
    (∀ (s : Store) (a se : Option String) (pg : Nat) (psz : Option Nat),
      listProducts s { merchant_id := none, active := a, search := se,
                       page := pg, page_size := psz } = .badRequest) ∧
    (∀ (s : Store) (mId : Nat) (a se : Option String) (pg : Nat)
        (psz : Option Nat),
      s.merchants.find? (fun m => m.id == mId) = none →
      listProducts s { merchant_id := some mId, active := a, search := se,
                       page := pg, page_size := psz } = .notFoundMerchant) ∧
    (∀ (s : Store) (mId : Nat) (a se : Option String) (psz : Option Nat)
        (m : Merchant),
      s.merchants.find? (fun m => m.id == mId) = some m →
      (∀ p ∈ s.products, p.merchantId ≠ mId) →
      listProducts s { merchant_id := some mId, active := a, search := se,
                       page := 1, page_size := psz } = .ok 0 []) := by
  refine ⟨fun s a se pg psz => rfl, ?_, ?_⟩
  · intro s mId a se pg psz hnone
    unfold listProducts
    dsimp only
    rw [hnone]
  · intro s mId a se psz m hm hno
    unfold listProducts
    dsimp only
    rw [hm]
    dsimp only
    have hq : applyFilters s.products (some mId) a se = [] := by
      unfold applyFilters applyMerchant
      dsimp only
      have hfil : s.products.filter (fun p => p.merchantId == mId) = [] := by
        refine List.filter_eq_nil_iff.mpr (fun p hp => ?_)
        simp [hno p hp]
      rw [hfil, applyActive_nil, applySearch_nil]
    rw [hq]
    have hne : numPages 0 (effectivePageSize psz) ≠ 0 :=
      Nat.pos_iff_ne_zero.mp (Nat.lt_of_lt_of_le Nat.zero_lt_one (Nat.le_max_left _ _))
    simp [hne]

/-- C6 witness: instance at `storeFix` (two merchants, empty catalog) and a
sample store for the unknown-merchant case. -/
theorem list_merchant_requirement_witness :
    listProducts storeFix
        { merchant_id := none, active := none, search := none,
          page := 1, page_size := none } = .badRequest ∧
    listProducts storeFix
        { merchant_id := some 77, active := none, search := none,
          page := 1, page_size := none } = .notFoundMerchant ∧
    listProducts storeFix
        { merchant_id := some 1, active := none, search := none,
          page := 1, page_size := none } = .ok 0 [] :=
  ⟨list_merchant_requirement.1 storeFix none none 1 none,
   list_merchant_requirement.2.1 storeFix 77 none none 1 none (by decide),
   list_merchant_requirement.2.2 storeFix 1 none none none mercFix
     (by decide) (by decide)⟩

/-- C7 counterexample: product 10 exists in `storeWithProd` (owned by
merchant 1) and is returned by a bare detail fetch, but the same detail
fetch with query parameter `merchant_id=2` answers 404 — the supplied
merchant filter does change which product a detail fetch finds, contrary to
the claim. -/
theorem detail_fetch_merchant_scoped :
    storeWithProd.products.find? (fun q => q.id == 10) = some prodFix ∧
    getProductDetail storeWithProd 10 {} = .ok prodFix [varFix] "Tech Store" ∧
    getProductDetail storeWithProd 10 { merchant_id := some 2 } = .notFound ∧
    DetailResult.status .notFound = 404 := by
  refine ⟨by decide, by decide, by decide, rfl⟩

/-- With no query parameters the `get_queryset` filter chain is the whole
product table. -/
theorem applyFilters_none (q : List Product) : applyFilters q none none none = q := rfl

/-- C7 amended: a detail fetch with no query parameters returns, for an
existing product id, the product together with the complete list of its
variants and the owning merchant's name, and 404 for a non-existent id —
but a supplied `merchant_id`, `active` or `search` parameter further
filters the queryset the id is looked up in, and can turn an existing
product's detail fetch into a 404. -/
theorem detail_fetch_contract :
    (∀ (s : Store) (pk : Nat) (prod : Product),
      s.products.find? (fun q => q.id == pk) = some prod →
      getProductDetail s pk {} =
        .ok prod (s.variants.filter (fun v => v.productId == prod.id))
          (((s.merchants.find? (fun m => m.id == prod.merchantId)).map
              (fun m => m.name)).getD "")) ∧
    (∀ (s : Store) (pk : Nat),
      s.products.find? (fun q => q.id == pk) = none →
      getProductDetail s pk {} = .notFound) := by
  constructor
  · intro s pk prod h
    unfold getProductDetail
    dsimp only
    rw [applyFilters_none, h]
  · intro s pk h
    unfold getProductDetail
    dsimp only
    rw [applyFilters_none, h]

/-- C7 amended, witness: instance at `storeWithProd`, product 10 and the
absent product 99. -/
theorem detail_fetch_contract_witness :
    getProductDetail storeWithProd 10 {} =
      .ok prodFix
        (storeWithProd.variants.filter (fun v => v.productId == prodFix.id))
        (((storeWithProd.merchants.find?
            (fun m => m.id == prodFix.merchantId)).map
              (fun m => m.name)).getD "") ∧
    getProductDetail storeWithProd 99 {} = .notFound :=
  ⟨detail_fetch_contract.1 storeWithProd 10 prodFix (by decide),
   detail_fetch_contract.2 storeWithProd 99 (by decide)⟩

/-- C9: a bulk-activate call with a non-empty id list succeeds with HTTP
200; the returned updated_count is the number of stored products whose id
is in the set (absent ids are silently ignored and not counted); every
product in the set gets the requested active flag, every product outside it
is untouched, and no rows appear or disappear. -/
theorem bulk_activate_counts_existing
    (s : Store) (ids : List Nat) (a : Bool) (hne : ids ≠ []) :
    (bulkActivate s ids a).2 =
      .ok (s.products.filter (fun p => ids.contains p.id)).length a ∧
    BulkResult.status (bulkActivate s ids a).2 = 200 ∧
    (bulkActivate s ids a).1.products.length = s.products.length ∧
    (∀ p ∈ s.products, ids.contains p.id = true →
      { p with active := a } ∈ (bulkActivate s ids a).1.products) ∧
    (∀ p ∈ s.products, ids.contains p.id = false →
      p ∈ (bulkActivate s ids a).1.products) := by
  have hie : ids.isEmpty = false := by
    cases ids with
    | nil => exact absurd rfl hne
    | cons x xs => rfl
  unfold bulkActivate
  rw [hie]
  dsimp only
  refine ⟨rfl, rfl, List.length_map .., ?_, ?_⟩
  · intro p hp hin
    refine List.mem_map.mpr ⟨p, hp, ?_⟩
    rw [hin]
    rfl
  · intro p hp hout
    refine List.mem_map.mpr ⟨p, hp, ?_⟩
    rw [hout]
    rfl

/-- C9 witness: on `storeTwoProds` (products 1 and 2) the id set
`[1, 2, 999]` updates both existing products and reports
`updated_count = 2` with HTTP 200, ignoring the absent id 999. -/
theorem bulk_activate_counts_existing_witness :
    (bulkActivate storeTwoProds [1, 2, 999] false).2 = .ok 2 false ∧
    BulkResult.status (bulkActivate storeTwoProds [1, 2, 999] false).2 = 200 := by
  have h := bulk_activate_counts_existing storeTwoProds [1, 2, 999] false
    (by decide)
  refine ⟨?_, h.2.1⟩
  rw [h.1]
  decide
